import Mathlib

/-!
Verification of the image-fetching commands of the `takealot-api-scraper-pwa`
repository (`src/src-tauri/src/lib.rs`).

The two Tauri commands `fetch_image` and `fetch_image_buffer` are shallowly
embedded as pure Lean functions.  The external HTTP client library
(`reqwest`) is modelled by an environment `Env` of oracles: the outcome of
`Proxy::all` on a proxy string, the outcome of `ClientBuilder::build` on a
client configuration, and the outcome of sending a GET request (which, on
success, yields a status code and the outcome of reading the body bytes).
The base64 `STANDARD` engine (standard alphabet, with padding) is embedded
directly.  Each function additionally returns a `Trace` recording the client
configuration that reached the build step and whether a GET request was
issued, so that "fails before any network request is attempted" is statable.
-/

/-- The standard base64 alphabet, as used by `base64::engine::general_purpose::STANDARD`. -/
def base64Alphabet : List Char :=
  "ABCDEFGHIJKLMNOPQRSTUVWXYZabcdefghijklmnopqrstuvwxyz0123456789+/".toList

/-- The `n`-th character of the standard base64 alphabet. -/
def b64Char (n : Nat) : Char := base64Alphabet.getD n 'A'

/-- Standard base64 encoding (with `=` padding) of a byte list, as a list of
characters.  Mirrors `base64::engine::general_purpose::STANDARD.encode`. -/
def base64EncodeChars : List Nat → List Char
  | [] => []
  | [b0] => [b64Char (b0 / 4), b64Char (b0 % 4 * 16), '=', '=']
  | [b0, b1] => [b64Char (b0 / 4), b64Char (b0 % 4 * 16 + b1 / 16),
      b64Char (b1 % 16 * 4), '=']
  | b0 :: b1 :: b2 :: rest =>
      b64Char (b0 / 4) :: b64Char (b0 % 4 * 16 + b1 / 16) ::
      b64Char (b1 % 16 * 4 + b2 / 64) :: b64Char (b2 % 64) ::
      base64EncodeChars rest

/-- Standard base64 encoding (with padding) of a byte list, as a string. -/
def base64Encode (bs : List Nat) : String := ⟨base64EncodeChars bs⟩

/-- The value of a base64 alphabet character, `none` for non-alphabet characters. -/
def b64Val (c : Char) : Option Nat :=
  let i := base64Alphabet.indexOf c
  if i < 64 then some i else none

/-- Standard base64 decoding of a character list (reference decoder used to
state the encode/decode round trip). -/
def base64DecodeChars : List Char → Option (List Nat)
  | [] => some []
  | c0 :: c1 :: c2 :: c3 :: rest =>
    match b64Val c0, b64Val c1 with
    | some v0, some v1 =>
      if c2 = '=' then
        if c3 = '=' ∧ rest = [] then some [v0 * 4 + v1 / 16] else none
      else
        match b64Val c2 with
        | some v2 =>
          if c3 = '=' then
            if rest = [] then some [v0 * 4 + v1 / 16, v1 % 16 * 16 + v2 / 4]
            else none
          else
            match b64Val c3, base64DecodeChars rest with
            | some v3, some tail =>
                some ((v0 * 4 + v1 / 16) :: (v1 % 16 * 16 + v2 / 4) ::
                  (v2 % 4 * 64 + v3) :: tail)
            | _, _ => none
        | none => none
    | _, _ => none
  | _ => none

/-- The client configuration assembled by `reqwest::Client::builder()` calls
in both commands (lines 7-12 and 73-78 of `lib.rs`). -/
structure ClientConfig where
  userAgent : String
  dangerAcceptInvalidCerts : Bool
  poolMaxIdlePerHost : Nat
  poolIdleTimeoutSecs : Nat
  timeoutSecs : Nat
  proxy : Option String
deriving DecidableEq, Repr

/-- The builder state before any proxy is applied, exactly as configured by
both commands. -/
def baseClientConfig : ClientConfig :=
  { userAgent := "Mozilla/5.0 (Macintosh; Intel Mac OS X 10_15_7) AppleWebKit/537.36"
    dangerAcceptInvalidCerts := true
    poolMaxIdlePerHost := 5
    poolIdleTimeoutSecs := 30
    timeoutSecs := 30
    proxy := none }

/-- A received HTTP response: a status code together with the outcome of
reading the full body (`response.bytes().await`), which may itself fail. -/
structure HttpResponse where
  status : Nat
  bytesResult : Except String (List Nat)

/-- The environment modelling the external `reqwest` library: the outcome of
`Proxy::all` on a proxy string, of `ClientBuilder::build` on a configuration,
and of `client.get(url).send().await`.  Error strings stand for the
`to_string()` rendering of the library error. -/
structure Env where
  proxyAll : String → Except String Unit
  build : ClientConfig → Except String Unit
  send : ClientConfig → String → Except String HttpResponse

/-- Observable side conditions of one call: the configuration that was passed
to `ClientBuilder::build` (if that point was reached) and whether a GET
request was issued. -/
structure Trace where
  config : Option ClientConfig
  requestSent : Bool
deriving DecidableEq, Repr

/-- `StatusCode::is_success` of the `http` crate: `200 <= code && code < 300`. -/
def isSuccessStatus (s : Nat) : Bool := decide (200 ≤ s ∧ s < 300)

/-- Canonical reason phrase of a status code, as in the `http` crate
(`canonical_reason`), for the codes exercised here; unknown codes display as
`<unknown status code>`. -/
def reasonPhrase : Nat → String
  | 200 => "OK"
  | 201 => "Created"
  | 204 => "No Content"
  | 301 => "Moved Permanently"
  | 302 => "Found"
  | 400 => "Bad Request"
  | 401 => "Unauthorized"
  | 403 => "Forbidden"
  | 404 => "Not Found"
  | 500 => "Internal Server Error"
  | 502 => "Bad Gateway"
  | 503 => "Service Unavailable"
  | _ => "<unknown status code>"

/-- `Display` of `reqwest::StatusCode`: the numeric code followed by its
canonical reason phrase. -/
def statusDisplay (s : Nat) : String := toString s ++ " " ++ reasonPhrase s

/-- The data-URI head prepended by `fetch_image` on success (line 66). -/
def dataUriHead : String := "data:image/jpeg;base64,"

/-- The part of `fetch_image` from `client_builder.build()` onward (lib.rs
lines 31-67), for an already-resolved client configuration: build the client,
GET `url`, require a 2xx status, read the body, and return
`"data:image/jpeg;base64," ++ base64(body)`.  Every failure is mapped to the
error string the Rust code returns at the corresponding `map_err`/early
return. -/
def fetch_image_with_client (url : String) (cfg : ClientConfig) (env : Env) :
    Except String String × Trace :=
  match env.build cfg with
  | .error e => (.error ("Failed to build client: " ++ e), ⟨some cfg, false⟩)
  | .ok _ =>
    match env.send cfg url with
    | .error e => (.error ("Request failed: " ++ e), ⟨some cfg, true⟩)
    | .ok response =>
      if !isSuccessStatus response.status then
        (.error ("Failed to fetch image: " ++ statusDisplay response.status),
          ⟨some cfg, true⟩)
      else
        match response.bytesResult with
        | .error e => (.error ("Failed to read bytes: " ++ e), ⟨some cfg, true⟩)
        | .ok bytes => (.ok (dataUriHead ++ base64Encode bytes), ⟨some cfg, true⟩)

/-- Shallow embedding of the Tauri command `fetch_image` (lib.rs lines 3-67):
resolve the optional proxy into the client configuration (lines 7-29), then
continue with `fetch_image_with_client`. -/
def fetch_image (url : String) (proxy_url : Option String) (env : Env) :
    Except String String × Trace :=
  match proxy_url with
  | some proxy_str =>
    if !proxy_str.isEmpty then
      match env.proxyAll proxy_str with
      | .error e => (.error ("Failed to create proxy: " ++ e), ⟨none, false⟩)
      | .ok _ =>
          fetch_image_with_client url
            { baseClientConfig with proxy := some proxy_str } env
    else fetch_image_with_client url baseClientConfig env
  | none => fetch_image_with_client url baseClientConfig env

/-- The part of `fetch_image_buffer` from `client_builder.build()` onward
(lib.rs lines 89-115): identical control flow to `fetch_image_with_client`,
but the success value is the raw byte list, and the build, send and body-read
failures return the bare library error string (`e.to_string()`), the
descriptive text going only to the log. -/
def fetch_image_buffer_with_client (url : String) (cfg : ClientConfig)
    (env : Env) : Except String (List Nat) × Trace :=
  match env.build cfg with
  | .error e => (.error e, ⟨some cfg, false⟩)
  | .ok _ =>
    match env.send cfg url with
    | .error e => (.error e, ⟨some cfg, true⟩)
    | .ok response =>
      if !isSuccessStatus response.status then
        (.error ("Failed to fetch image: " ++ statusDisplay response.status),
          ⟨some cfg, true⟩)
      else
        match response.bytesResult with
        | .error e => (.error e, ⟨some cfg, true⟩)
        | .ok bytes => (.ok bytes, ⟨some cfg, true⟩)

/-- Shallow embedding of the Tauri command `fetch_image_buffer` (lib.rs lines
69-116): resolve the optional proxy into the client configuration (lines
73-87), then continue with `fetch_image_buffer_with_client`. -/
def fetch_image_buffer (url : String) (proxy_url : Option String) (env : Env) :
    Except String (List Nat) × Trace :=
  match proxy_url with
  | some proxy_str =>
    if !proxy_str.isEmpty then
      match env.proxyAll proxy_str with
      | .error e => (.error ("Failed to create proxy: " ++ e), ⟨none, false⟩)
      | .ok _ =>
          fetch_image_buffer_with_client url
            { baseClientConfig with proxy := some proxy_str } env
    else fetch_image_buffer_with_client url baseClientConfig env
  | none => fetch_image_buffer_with_client url baseClientConfig env

/-- Every alphabet index below 64 decodes back to itself. -/
theorem b64Val_b64Char_ball : ∀ n < 64, b64Val (b64Char n) = some n := by decide

/-- No alphabet character is the padding character. -/
theorem b64Char_ne_pad_ball : ∀ n < 64, b64Char n ≠ '=' := by decide

/-- Decoding inverts encoding on byte lists (all entries below 256). -/
theorem base64_decode_encode (B : List Nat) (hB : ∀ b ∈ B, b < 256) :
    base64DecodeChars (base64EncodeChars B) = some B := by
  induction B using base64EncodeChars.induct with
  | case1 => rfl
  | case2 b0 =>
    have h0 : b0 < 256 := hB b0 (by simp)
    simp only [base64EncodeChars, base64DecodeChars,
      b64Val_b64Char_ball (b0 / 4) (by omega),
      b64Val_b64Char_ball (b0 % 4 * 16) (by omega)]
    simp only [and_self, if_true, Option.some.injEq, List.cons.injEq, and_true]
    omega
  | case3 b0 b1 =>
    have h0 : b0 < 256 := hB b0 (by simp)
    have h1 : b1 < 256 := hB b1 (by simp)
    simp only [base64EncodeChars, base64DecodeChars,
      b64Val_b64Char_ball (b0 / 4) (by omega),
      b64Val_b64Char_ball (b0 % 4 * 16 + b1 / 16) (by omega),
      b64Val_b64Char_ball (b1 % 16 * 4) (by omega)]
    rw [if_neg (b64Char_ne_pad_ball (b1 % 16 * 4) (by omega))]
    simp only [if_true, Option.some.injEq, List.cons.injEq, and_true]
    omega
  | case4 b0 b1 b2 rest ih =>
    have h0 : b0 < 256 := hB b0 (by simp)
    have h1 : b1 < 256 := hB b1 (by simp)
    have h2 : b2 < 256 := hB b2 (by simp)
    have hrest : ∀ b ∈ rest, b < 256 := fun b hb => hB b (by simp [hb])
    simp only [base64EncodeChars, base64DecodeChars,
      b64Val_b64Char_ball (b0 / 4) (by omega),
      b64Val_b64Char_ball (b0 % 4 * 16 + b1 / 16) (by omega),
      b64Val_b64Char_ball (b1 % 16 * 4 + b2 / 64) (by omega),
      b64Val_b64Char_ball (b2 % 64) (by omega)]
    rw [if_neg (b64Char_ne_pad_ball (b1 % 16 * 4 + b2 / 64) (by omega))]
    rw [if_neg (b64Char_ne_pad_ball (b2 % 64) (by omega))]
    rw [ih hrest]
    simp only [Option.some.injEq, List.cons.injEq, eq_self_iff_true, and_true]
    omega

/-- String concatenation is associative. -/
theorem string_append_assoc (a b c : String) : a ++ b ++ c = a ++ (b ++ c) := by
  simp only [String.congr_append, List.append_assoc]

/-- When every proxy string that could be supplied is accepted by
`Proxy::all`, both commands reduce to their `with_client` continuation on a
common configuration. -/
theorem resolution_ok (url : String) (proxy_url : Option String) (env : Env)
    (hproxy : ∀ p, proxy_url = some p → env.proxyAll p = Except.ok ()) :
    ∃ cfg,
      fetch_image url proxy_url env = fetch_image_with_client url cfg env ∧
      fetch_image_buffer url proxy_url env
        = fetch_image_buffer_with_client url cfg env := by
  cases proxy_url with
  | none => exact ⟨baseClientConfig, rfl, rfl⟩
  | some p =>
    cases hE : p.isEmpty with
    | true =>
      exact ⟨baseClientConfig, by simp [fetch_image, hE],
        by simp [fetch_image_buffer, hE]⟩
    | false =>
      exact ⟨{ baseClientConfig with proxy := some p },
        by simp [fetch_image, hE, hproxy p rfl],
        by simp [fetch_image_buffer, hE, hproxy p rfl]⟩

/-- Happy path of the `fetch_image` continuation. -/
theorem fetch_image_with_client_ok (url : String) (cfg : ClientConfig)
    (env : Env) (s : Nat) (B : List Nat)
    (hbuild : env.build cfg = Except.ok ())
    (hsend : env.send cfg url = Except.ok ⟨s, Except.ok B⟩)
    (hs1 : 200 ≤ s) (hs2 : s < 300) :
    fetch_image_with_client url cfg env
      = (Except.ok (dataUriHead ++ base64Encode B), ⟨some cfg, true⟩) := by
  have hsucc : isSuccessStatus s = true := by
    simp only [isSuccessStatus, decide_eq_true_eq]
    omega
  simp [fetch_image_with_client, hbuild, hsend, hsucc]

/-- Happy path of the `fetch_image_buffer` continuation. -/
theorem fetch_image_buffer_with_client_ok (url : String) (cfg : ClientConfig)
    (env : Env) (s : Nat) (B : List Nat)
    (hbuild : env.build cfg = Except.ok ())
    (hsend : env.send cfg url = Except.ok ⟨s, Except.ok B⟩)
    (hs1 : 200 ≤ s) (hs2 : s < 300) :
    fetch_image_buffer_with_client url cfg env
      = (Except.ok B, ⟨some cfg, true⟩) := by
  have hsucc : isSuccessStatus s = true := by
    simp only [isSuccessStatus, decide_eq_true_eq]
    omega
  simp [fetch_image_buffer_with_client, hbuild, hsend, hsucc]

/-- Non-2xx path of both continuations. -/
theorem with_client_non_2xx (url : String) (cfg : ClientConfig) (env : Env)
    (s : Nat) (br : Except String (List Nat))
    (hbuild : env.build cfg = Except.ok ())
    (hsend : env.send cfg url = Except.ok ⟨s, br⟩)
    (hs : s < 200 ∨ 300 ≤ s) :
    (fetch_image_with_client url cfg env).1
        = Except.error ("Failed to fetch image: " ++ statusDisplay s) ∧
    (fetch_image_buffer_with_client url cfg env).1
        = Except.error ("Failed to fetch image: " ++ statusDisplay s) := by
  have hsucc : isSuccessStatus s = false := by
    simp only [isSuccessStatus, decide_eq_false_iff_not]
    omega
  constructor
  · simp [fetch_image_with_client, hbuild, hsend, hsucc]
  · simp [fetch_image_buffer_with_client, hbuild, hsend, hsucc]

/-- The trace of either continuation always records the supplied
configuration. -/
theorem with_client_trace_config (url : String) (cfg : ClientConfig)
    (env : Env) :
    (fetch_image_with_client url cfg env).2.config = some cfg ∧
    (fetch_image_buffer_with_client url cfg env).2.config = some cfg := by
  rcases hb : env.build cfg with e | u
  · simp [fetch_image_with_client, fetch_image_buffer_with_client, hb]
  · rcases hs : env.send cfg url with e | resp
    · simp [fetch_image_with_client, fetch_image_buffer_with_client, hb, hs]
    · by_cases hst : isSuccessStatus resp.status
      · rcases hr : resp.bytesResult with e | bs <;>
          simp [fetch_image_with_client, fetch_image_buffer_with_client,
            hb, hs, hst, hr]
      · simp [fetch_image_with_client, fetch_image_buffer_with_client,
          hb, hs, hst]

/-- The two continuations agree on success/failure, and the data-URI result
is the head plus the base64 encoding of the byte result. -/
theorem with_client_refines (url : String) (cfg : ClientConfig) (env : Env) :
    (fetch_image_with_client url cfg env).1.toOption
      = ((fetch_image_buffer_with_client url cfg env).1.toOption).map
          (fun B => dataUriHead ++ base64Encode B) ∧
    (fetch_image_with_client url cfg env).1.isOk
      = (fetch_image_buffer_with_client url cfg env).1.isOk := by
  rcases hb : env.build cfg with e | u
  · simp [fetch_image_with_client, fetch_image_buffer_with_client, hb,
      Except.toOption, Except.isOk, Except.toBool]
  · rcases hs : env.send cfg url with e | resp
    · simp [fetch_image_with_client, fetch_image_buffer_with_client, hb, hs,
        Except.toOption, Except.isOk, Except.toBool]
    · by_cases hst : isSuccessStatus resp.status
      · rcases hr : resp.bytesResult with e | bs <;>
          simp [fetch_image_with_client, fetch_image_buffer_with_client,
            hb, hs, hst, hr, Except.toOption, Except.isOk, Except.toBool]
      · simp [fetch_image_with_client, fetch_image_buffer_with_client,
          hb, hs, hst, Except.toOption, Except.isOk, Except.toBool]

/-- Happy path of `fetch_image`, lifted over proxy resolution. -/
theorem fetch_image_ok (url : String) (proxy_url : Option String) (env : Env)
    (s : Nat) (B : List Nat)
    (hproxy : ∀ p, proxy_url = some p → env.proxyAll p = Except.ok ())
    (hbuild : ∀ cfg, env.build cfg = Except.ok ())
    (hsend : ∀ cfg, env.send cfg url = Except.ok ⟨s, Except.ok B⟩)
    (hs1 : 200 ≤ s) (hs2 : s < 300) :
    (fetch_image url proxy_url env).1
      = Except.ok (dataUriHead ++ base64Encode B) := by
  obtain ⟨cfg, h1, _⟩ := resolution_ok url proxy_url env hproxy
  rw [h1, fetch_image_with_client_ok url cfg env s B (hbuild cfg) (hsend cfg)
    hs1 hs2]

/-- Happy path of `fetch_image_buffer`, lifted over proxy resolution. -/
theorem fetch_image_buffer_ok (url : String) (proxy_url : Option String)
    (env : Env) (s : Nat) (B : List Nat)
    (hproxy : ∀ p, proxy_url = some p → env.proxyAll p = Except.ok ())
    (hbuild : ∀ cfg, env.build cfg = Except.ok ())
    (hsend : ∀ cfg, env.send cfg url = Except.ok ⟨s, Except.ok B⟩)
    (hs1 : 200 ≤ s) (hs2 : s < 300) :
    (fetch_image_buffer url proxy_url env).1 = Except.ok B := by
  obtain ⟨cfg, _, h2⟩ := resolution_ok url proxy_url env hproxy
  rw [h2, fetch_image_buffer_with_client_ok url cfg env s B (hbuild cfg)
    (hsend cfg) hs1 hs2]

/-- An environment where everything succeeds and the body is the three JPEG
magic bytes. -/
def envOkJpeg : Env :=
  { proxyAll := fun _ => Except.ok ()
    build := fun _ => Except.ok ()
    send := fun _ _ => Except.ok ⟨200, Except.ok [255, 216, 255]⟩ }

/-- An environment where everything succeeds and the body is empty, with a
204 status. -/
def envOkEmpty : Env :=
  { proxyAll := fun _ => Except.ok ()
    build := fun _ => Except.ok ()
    send := fun _ _ => Except.ok ⟨204, Except.ok []⟩ }

/-- An environment whose GET always yields a 404 response. -/
def env404 : Env :=
  { proxyAll := fun _ => Except.ok ()
    build := fun _ => Except.ok ()
    send := fun _ _ => Except.ok ⟨404, Except.ok []⟩ }

/-- An environment where `Proxy::all` rejects every proxy string. -/
def envProxyFail : Env :=
  { proxyAll := fun _ => Except.error "invalid proxy scheme"
    build := fun _ => Except.ok ()
    send := fun _ _ => Except.error "unreachable" }

/-- An environment where `ClientBuilder::build` fails. -/
def envBuildFail : Env :=
  { proxyAll := fun _ => Except.ok ()
    build := fun _ => Except.error "boom"
    send := fun _ _ => Except.error "unreachable" }

/-- An environment where sending the GET request fails. -/
def envSendFail : Env :=
  { proxyAll := fun _ => Except.ok ()
    build := fun _ => Except.ok ()
    send := fun _ _ => Except.error "connection refused" }

/-- An environment where the response arrives with a 200 status but reading
the body fails. -/
def envReadFail : Env :=
  { proxyAll := fun _ => Except.ok ()
    build := fun _ => Except.ok ()
    send := fun _ _ => Except.ok ⟨200, Except.error "connection reset"⟩ }

/-- C1: for every GET response with a 2xx status and body `B`, `fetch_image`
returns the string `"data:image/jpeg;base64,"` followed by the
standard-alphabet, padded base64 encoding of `B`; the `image/jpeg` head is
produced for every successful call regardless of the content bytes `B`. -/
theorem c1_fetch_image_data_uri (url : String) (proxy_url : Option String)
    (env : Env) (s : Nat) (B : List Nat)
    (hproxy : ∀ p, proxy_url = some p → env.proxyAll p = Except.ok ())
    (hbuild : ∀ cfg, env.build cfg = Except.ok ())
    (hsend : ∀ cfg, env.send cfg url = Except.ok ⟨s, Except.ok B⟩)
    (hs1 : 200 ≤ s) (hs2 : s < 300) :
    (fetch_image url proxy_url env).1
      = Except.ok (dataUriHead ++ base64Encode B) :=
  fetch_image_ok url proxy_url env s B hproxy hbuild hsend hs1 hs2

/-- Witness for C1 at a concrete URL, proxy and 200-response environment. -/
theorem c1_witness :
    (fetch_image "http://example.com/a.jpg" (some "http://proxy:8080")
        envOkJpeg).1
      = Except.ok "data:image/jpeg;base64,/9j/" := by
  have h := c1_fetch_image_data_uri "http://example.com/a.jpg"
    (some "http://proxy:8080") envOkJpeg 200 [255, 216, 255]
    (fun p _ => rfl) (fun _ => rfl) (fun _ => rfl) (by decide) (by decide)
  exact h

/-- C2: for every GET response with a 2xx status and body `B`,
`fetch_image_buffer` returns exactly the byte sequence `B`, unchanged. -/
theorem c2_fetch_image_buffer_bytes (url : String) (proxy_url : Option String)
    (env : Env) (s : Nat) (B : List Nat)
    (hproxy : ∀ p, proxy_url = some p → env.proxyAll p = Except.ok ())
    (hbuild : ∀ cfg, env.build cfg = Except.ok ())
    (hsend : ∀ cfg, env.send cfg url = Except.ok ⟨s, Except.ok B⟩)
    (hs1 : 200 ≤ s) (hs2 : s < 300) :
    (fetch_image_buffer url proxy_url env).1 = Except.ok B :=
  fetch_image_buffer_ok url proxy_url env s B hproxy hbuild hsend hs1 hs2

/-- Witness for C2 at a concrete URL and 200-response environment. -/
theorem c2_witness :
    (fetch_image_buffer "http://example.com/a.jpg" none envOkJpeg).1
      = Except.ok [255, 216, 255] :=
  c2_fetch_image_buffer_bytes "http://example.com/a.jpg" none envOkJpeg 200
    [255, 216, 255] (fun p hp => by cases hp) (fun _ => rfl) (fun _ => rfl)
    (by decide) (by decide)

/-- C3 counterexample: when `ClientBuilder::build` fails with message
`"boom"`, `fetch_image_buffer` surfaces the bare message `"boom"` — the
designated text `"Failed to build client: "` is not a prefix of the returned
error string, so the claim fails for `fetch_image_buffer`. -/
theorem c3_counterexample :
    (fetch_image_buffer "http://example.com" none envBuildFail).1
        = Except.error "boom" ∧
    "Failed to build client: ".data.isPrefixOf "boom".data = false := by
  exact ⟨rfl, by decide⟩

/-- C3 (amended): `fetch_image` surfaces every designated message head
(`"Failed to create proxy: "`, `"Failed to build client: "`,
`"Request failed: "`, `"Failed to read bytes: "`); `fetch_image_buffer`
surfaces the designated head only for proxy-creation failure, while its
client-build, request and body-read failures return the bare underlying
library message with no added head. -/
theorem c3_error_heads (url : String) (proxy_url : Option String) (env : Env)
    (p e : String) :
    (p.isEmpty = false → env.proxyAll p = Except.error e →
      (fetch_image url (some p) env).1
          = Except.error ("Failed to create proxy: " ++ e) ∧
      (fetch_image_buffer url (some p) env).1
          = Except.error ("Failed to create proxy: " ++ e)) ∧
    ((∀ q, proxy_url = some q → env.proxyAll q = Except.ok ()) →
     (∀ cfg, env.build cfg = Except.error e) →
      (fetch_image url proxy_url env).1
          = Except.error ("Failed to build client: " ++ e) ∧
      (fetch_image_buffer url proxy_url env).1 = Except.error e) ∧
    ((∀ q, proxy_url = some q → env.proxyAll q = Except.ok ()) →
     (∀ cfg, env.build cfg = Except.ok ()) →
     (∀ cfg, env.send cfg url = Except.error e) →
      (fetch_image url proxy_url env).1
          = Except.error ("Request failed: " ++ e) ∧
      (fetch_image_buffer url proxy_url env).1 = Except.error e) ∧
    (∀ s, 200 ≤ s → s < 300 →
     (∀ q, proxy_url = some q → env.proxyAll q = Except.ok ()) →
     (∀ cfg, env.build cfg = Except.ok ()) →
     (∀ cfg, env.send cfg url = Except.ok ⟨s, Except.error e⟩) →
      (fetch_image url proxy_url env).1
          = Except.error ("Failed to read bytes: " ++ e) ∧
      (fetch_image_buffer url proxy_url env).1 = Except.error e) := by
  refine ⟨?_, ?_, ?_, ?_⟩
  · intro hp hfail
    constructor
    · simp [fetch_image, hp, hfail]
    · simp [fetch_image_buffer, hp, hfail]
  · intro hproxy hbuild
    obtain ⟨cfg, h1, h2⟩ := resolution_ok url proxy_url env hproxy
    rw [h1, h2]
    constructor
    · simp [fetch_image_with_client, hbuild cfg]
    · simp [fetch_image_buffer_with_client, hbuild cfg]
  · intro hproxy hbuild hsend
    obtain ⟨cfg, h1, h2⟩ := resolution_ok url proxy_url env hproxy
    rw [h1, h2]
    constructor
    · simp [fetch_image_with_client, hbuild cfg, hsend cfg]
    · simp [fetch_image_buffer_with_client, hbuild cfg, hsend cfg]
  · intro s hs1 hs2 hproxy hbuild hsend
    obtain ⟨cfg, h1, h2⟩ := resolution_ok url proxy_url env hproxy
    rw [h1, h2]
    have hsucc : isSuccessStatus s = true := by
      simp only [isSuccessStatus, decide_eq_true_eq]
      omega
    constructor
    · simp [fetch_image_with_client, hbuild cfg, hsend cfg, hsucc]
    · simp [fetch_image_buffer_with_client, hbuild cfg, hsend cfg, hsucc]

/-- Witness for C3 (amended): every failure class exercised at concrete
inputs, discharging every hypothesis of each conjunct. -/
theorem c3_witness :
    (fetch_image "http://h/i" (some "not a url") envProxyFail).1
        = Except.error "Failed to create proxy: invalid proxy scheme" ∧
    (fetch_image_buffer "http://h/i" (some "not a url") envProxyFail).1
        = Except.error "Failed to create proxy: invalid proxy scheme" ∧
    (fetch_image "http://h/i" none envBuildFail).1
        = Except.error "Failed to build client: boom" ∧
    (fetch_image_buffer "http://h/i" none envBuildFail).1
        = Except.error "boom" ∧
    (fetch_image "http://h/i" none envSendFail).1
        = Except.error "Request failed: connection refused" ∧
    (fetch_image_buffer "http://h/i" none envSendFail).1
        = Except.error "connection refused" ∧
    (fetch_image "http://h/i" none envReadFail).1
        = Except.error "Failed to read bytes: connection reset" ∧
    (fetch_image_buffer "http://h/i" none envReadFail).1
        = Except.error "connection reset" := by
  have h1 := (c3_error_heads "http://h/i" none envProxyFail "not a url"
    "invalid proxy scheme").1 (by decide) rfl
  have h2 := ((c3_error_heads "http://h/i" none envBuildFail "x" "boom").2.1
    (fun q hq => by cases hq) (fun _ => rfl))
  have h3 := ((c3_error_heads "http://h/i" none envSendFail "x"
    "connection refused").2.2.1 (fun q hq => by cases hq) (fun _ => rfl)
    (fun _ => rfl))
  have h4 := ((c3_error_heads "http://h/i" none envReadFail "x"
    "connection reset").2.2.2 200 (by decide) (by decide)
    (fun q hq => by cases hq) (fun _ => rfl) (fun _ => rfl))
  exact ⟨h1.1, h1.2, h2.1, h2.2, h3.1, h3.2, h4.1, h4.2⟩

/-- C4: for every HTTP response whose status lies outside `[200, 299]`, both
commands return an error (never a success value), equal to
`"Failed to fetch image: "` followed by the status display, which contains
the numeric status. -/
theorem c4_non_2xx_error (url : String) (proxy_url : Option String)
    (env : Env) (s : Nat) (br : Except String (List Nat))
    (hproxy : ∀ p, proxy_url = some p → env.proxyAll p = Except.ok ())
    (hbuild : ∀ cfg, env.build cfg = Except.ok ())
    (hsend : ∀ cfg, env.send cfg url = Except.ok ⟨s, br⟩)
    (hs : s < 200 ∨ 300 ≤ s) :
    (fetch_image url proxy_url env).1
        = Except.error ("Failed to fetch image: " ++ statusDisplay s) ∧
    (fetch_image_buffer url proxy_url env).1
        = Except.error ("Failed to fetch image: " ++ statusDisplay s) ∧
    ∃ tail, "Failed to fetch image: " ++ statusDisplay s
        = "Failed to fetch image: " ++ toString s ++ tail := by
  obtain ⟨cfg, h1, h2⟩ := resolution_ok url proxy_url env hproxy
  obtain ⟨hi, hbuf⟩ := with_client_non_2xx url cfg env s br (hbuild cfg)
    (hsend cfg) hs
  refine ⟨by rw [h1]; exact hi, by rw [h2]; exact hbuf,
    ⟨" " ++ reasonPhrase s, ?_⟩⟩
  simp only [statusDisplay, string_append_assoc]

/-- Witness for C4 at a concrete 404-response environment. -/
theorem c4_witness :
    (fetch_image "http://t/a.png" none env404).1
        = Except.error ("Failed to fetch image: " ++ statusDisplay 404) ∧
    (fetch_image_buffer "http://t/a.png" none env404).1
        = Except.error ("Failed to fetch image: " ++ statusDisplay 404) ∧
    ∃ tail, "Failed to fetch image: " ++ statusDisplay 404
        = "Failed to fetch image: " ++ toString 404 ++ tail :=
  c4_non_2xx_error "http://t/a.png" none env404 404 (Except.ok [])
    (fun p hp => by cases hp) (fun _ => rfl) (fun _ => rfl) (by omega)

/-- C5: for every url and environment, calling either command with
`proxy_url = none` and with `proxy_url = some ""` produces identical results
and traces; in both cases the client configuration handed to the builder is
the base configuration, which has no proxy applied. -/
theorem c5_none_empty_proxy_equiv (url : String) (env : Env) :
    fetch_image url none env = fetch_image url (some "") env ∧
    fetch_image_buffer url none env = fetch_image_buffer url (some "") env ∧
    (fetch_image url none env).2.config = some baseClientConfig ∧
    (fetch_image_buffer url none env).2.config = some baseClientConfig ∧
    baseClientConfig.proxy = none := by
  obtain ⟨hc1, hc2⟩ := with_client_trace_config url baseClientConfig env
  exact ⟨rfl, rfl, hc1, hc2, rfl⟩

/-- C6: for every non-empty proxy string rejected by `Proxy::all`, both
commands fail with an error string beginning `"Failed to create proxy: "`
and no GET request is issued. -/
theorem c6_invalid_proxy_fails_early (url p e : String) (env : Env)
    (hp : p.isEmpty = false) (hfail : env.proxyAll p = Except.error e) :
    (fetch_image url (some p) env).1
        = Except.error ("Failed to create proxy: " ++ e) ∧
    (fetch_image url (some p) env).2.requestSent = false ∧
    (fetch_image_buffer url (some p) env).1
        = Except.error ("Failed to create proxy: " ++ e) ∧
    (fetch_image_buffer url (some p) env).2.requestSent = false := by
  refine ⟨?_, ?_, ?_, ?_⟩ <;>
    simp [fetch_image, fetch_image_buffer, hp, hfail]

/-- Witness for C6 at the concrete proxy string `"not a url"`. -/
theorem c6_witness :
    (fetch_image "http://h/i" (some "not a url") envProxyFail).1
        = Except.error ("Failed to create proxy: " ++ "invalid proxy scheme") ∧
    (fetch_image "http://h/i" (some "not a url") envProxyFail).2.requestSent
        = false ∧
    (fetch_image_buffer "http://h/i" (some "not a url") envProxyFail).1
        = Except.error ("Failed to create proxy: " ++ "invalid proxy scheme") ∧
    (fetch_image_buffer "http://h/i" (some "not a url")
        envProxyFail).2.requestSent = false :=
  c6_invalid_proxy_fails_early "http://h/i" "not a url"
    "invalid proxy scheme" envProxyFail (by decide) rfl

/-- C7: for every url, proxy choice and environment, `fetch_image` succeeds
exactly when `fetch_image_buffer` succeeds, and on success its value is
`"data:image/jpeg;base64,"` concatenated with the standard base64 encoding
of `fetch_image_buffer`'s byte result. -/
theorem c7_refinement (url : String) (proxy_url : Option String) (env : Env) :
    (fetch_image url proxy_url env).1.toOption
      = ((fetch_image_buffer url proxy_url env).1.toOption).map
          (fun B => dataUriHead ++ base64Encode B) ∧
    (fetch_image url proxy_url env).1.isOk
      = (fetch_image_buffer url proxy_url env).1.isOk := by
  cases proxy_url with
  | none => exact with_client_refines url baseClientConfig env
  | some p =>
    cases hE : p.isEmpty with
    | true =>
      have h1 : fetch_image url (some p) env
          = fetch_image_with_client url baseClientConfig env := by
        simp [fetch_image, hE]
      have h2 : fetch_image_buffer url (some p) env
          = fetch_image_buffer_with_client url baseClientConfig env := by
        simp [fetch_image_buffer, hE]
      rw [h1, h2]
      exact with_client_refines url baseClientConfig env
    | false =>
      rcases hq : env.proxyAll p with e | u
      · have h1 : (fetch_image url (some p) env).1
            = Except.error ("Failed to create proxy: " ++ e) := by
          simp [fetch_image, hE, hq]
        have h2 : (fetch_image_buffer url (some p) env).1
            = Except.error ("Failed to create proxy: " ++ e) := by
          simp [fetch_image_buffer, hE, hq]
        rw [h1, h2]
        exact ⟨rfl, rfl⟩
      · have h1 : fetch_image url (some p) env
            = fetch_image_with_client url
                { baseClientConfig with proxy := some p } env := by
          simp [fetch_image, hE, hq]
        have h2 : fetch_image_buffer url (some p) env
            = fetch_image_buffer_with_client url
                { baseClientConfig with proxy := some p } env := by
          simp [fetch_image_buffer, hE, hq]
        rw [h1, h2]
        exact with_client_refines url
          { baseClientConfig with proxy := some p } env

/-- C8: for every 2xx response body `B`, dropping the 23-character head
`"data:image/jpeg;base64,"` from `fetch_image`'s successful result and
base64-decoding the remaining suffix yields exactly `B`. -/
theorem c8_encode_decode_round_trip (url : String)
    (proxy_url : Option String) (env : Env) (s : Nat) (B : List Nat)
    (hB : ∀ b ∈ B, b < 256)
    (hproxy : ∀ p, proxy_url = some p → env.proxyAll p = Except.ok ())
    (hbuild : ∀ cfg, env.build cfg = Except.ok ())
    (hsend : ∀ cfg, env.send cfg url = Except.ok ⟨s, Except.ok B⟩)
    (hs1 : 200 ≤ s) (hs2 : s < 300) :
    ∃ out, (fetch_image url proxy_url env).1 = Except.ok out ∧
      out.data.take 23 = dataUriHead.data ∧
      base64DecodeChars (out.data.drop 23) = some B := by
  refine ⟨dataUriHead ++ base64Encode B,
    fetch_image_ok url proxy_url env s B hproxy hbuild hsend hs1 hs2, ?_, ?_⟩
  · have hd : (dataUriHead ++ base64Encode B).data
        = dataUriHead.data ++ base64EncodeChars B := rfl
    have hlen : dataUriHead.data.length = 23 := rfl
    rw [hd, ← hlen, List.take_left]
  · have hd : (dataUriHead ++ base64Encode B).data
        = dataUriHead.data ++ base64EncodeChars B := rfl
    have hlen : dataUriHead.data.length = 23 := rfl
    rw [hd, ← hlen, List.drop_left]
    exact base64_decode_encode B hB

/-- Witness for C8 at the JPEG magic bytes. -/
theorem c8_witness :
    ∃ out, (fetch_image "http://example.com/a.jpg" none envOkJpeg).1
        = Except.ok out ∧
      out.data.take 23 = dataUriHead.data ∧
      base64DecodeChars (out.data.drop 23) = some [255, 216, 255] :=
  c8_encode_decode_round_trip "http://example.com/a.jpg" none envOkJpeg 200
    [255, 216, 255] (by decide) (fun p hp => by cases hp) (fun _ => rfl)
    (fun _ => rfl) (by decide) (by decide)

/-- C9: concrete instances — a 404 response makes both commands fail with a
message containing `"404"`; a 200 response with body `[0xFF, 0xD8, 0xFF]`
makes `fetch_image_buffer` return exactly those bytes and `fetch_image`
return exactly `"data:image/jpeg;base64,/9j/"`. -/
theorem c9_concrete_scenarios :
    (fetch_image "http://t/x.jpg" none env404).1
        = Except.error "Failed to fetch image: 404 Not Found" ∧
    "404".data <:+: "Failed to fetch image: 404 Not Found".data ∧
    (fetch_image_buffer "http://t/x.jpg" none env404).1
        = Except.error "Failed to fetch image: 404 Not Found" ∧
    (fetch_image_buffer "http://t/x.jpg" none envOkJpeg).1
        = Except.ok [255, 216, 255] ∧
    (fetch_image "http://t/x.jpg" none envOkJpeg).1
        = Except.ok "data:image/jpeg;base64,/9j/" :=
  ⟨rfl, by decide, rfl, rfl, rfl⟩

/-- C10: a 2xx response with an empty body is a success —
`fetch_image_buffer` returns the empty byte sequence and `fetch_image`
returns exactly the bare head `"data:image/jpeg;base64,"`. -/
theorem c10_empty_body_success (url : String) (proxy_url : Option String)
    (env : Env) (s : Nat)
    (hproxy : ∀ p, proxy_url = some p → env.proxyAll p = Except.ok ())
    (hbuild : ∀ cfg, env.build cfg = Except.ok ())
    (hsend : ∀ cfg, env.send cfg url = Except.ok ⟨s, Except.ok []⟩)
    (hs1 : 200 ≤ s) (hs2 : s < 300) :
    (fetch_image_buffer url proxy_url env).1 = Except.ok [] ∧
    (fetch_image url proxy_url env).1
        = Except.ok "data:image/jpeg;base64," := by
  refine ⟨fetch_image_buffer_ok url proxy_url env s [] hproxy hbuild hsend
    hs1 hs2, ?_⟩
  exact fetch_image_ok url proxy_url env s [] hproxy hbuild hsend hs1 hs2

/-- Witness for C10 at a concrete 204-response environment. -/
theorem c10_witness :
    (fetch_image_buffer "http://t/empty" none envOkEmpty).1
        = Except.ok [] ∧
    (fetch_image "http://t/empty" none envOkEmpty).1
        = Except.ok "data:image/jpeg;base64," :=
  c10_empty_body_success "http://t/empty" none envOkEmpty 204
    (fun p hp => by cases hp) (fun _ => rfl) (fun _ => rfl)
    (by decide) (by decide)
